import Mathlib

/-!
Nirmaan front end: result rendering, error view, reset, recording and submission.

A shallow embedding of `frontend/js/audio.js` and `frontend/js/text.js`.

Modelling conventions.

* The DOM is an explicit record of the properties the scripts read or write
  (`View`, `AudioPage`, `TextPage`); every handler is a function on that record.
  The page markup is not part of the scripts; every element they look up is
  taken to exist, so the `if (element)` guards are always taken.
* JavaScript numbers are `JsNum`: an exact rational, or one of the non-finite
  values a division by zero produces.  Rounding of IEEE doubles and the sign of
  zero are not modelled.
* A scoring result is the JSON object of the documented shape
  `{overall_score?, transcription?, breakdown?}`; a missing (or `null`)
  property is `none`.  The JSON value `null` in place of the whole object is
  the one value on which a property read throws.
* An awaited operation is resolved by an explicit argument of the handler that
  awaits it (microphone grant, decoded duration, fetch result).
-/

namespace Nirmaan

/-! ## Numbers -/

/-- A JavaScript number: a finite value or a non-finite one. -/
inductive JsNum where
  | fin (q : ℚ)
  | posInf
  | negInf
  | nan
  deriving DecidableEq

namespace JsNum

/-- JavaScript `a / b`. -/
def div : JsNum → JsNum → JsNum
  | fin x, fin y =>
      if y = 0 then (if x = 0 then nan else if 0 < x then posInf else negInf)
      else fin (x / y)
  | fin _, posInf => fin 0
  | fin _, negInf => fin 0
  | posInf, fin y => if 0 ≤ y then posInf else negInf
  | negInf, fin y => if 0 ≤ y then negInf else posInf
  | _, _ => nan

/-- JavaScript `a * b`. -/
def mul : JsNum → JsNum → JsNum
  | fin x, fin y => fin (x * y)
  | fin x, posInf => if x = 0 then nan else if 0 < x then posInf else negInf
  | fin x, negInf => if x = 0 then nan else if 0 < x then negInf else posInf
  | posInf, fin y => if y = 0 then nan else if 0 < y then posInf else negInf
  | negInf, fin y => if y = 0 then nan else if 0 < y then negInf else posInf
  | posInf, posInf => posInf
  | negInf, negInf => posInf
  | posInf, negInf => negInf
  | negInf, posInf => negInf
  | _, _ => nan

/-- JavaScript `a - b`. -/
def sub : JsNum → JsNum → JsNum
  | fin x, fin y => fin (x - y)
  | fin _, posInf => negInf
  | fin _, negInf => posInf
  | posInf, fin _ => posInf
  | negInf, fin _ => negInf
  | posInf, negInf => posInf
  | negInf, posInf => negInf
  | _, _ => nan

end JsNum

/-! ## Scoring result (the parsed response) -/

/-- One entry of `result.breakdown`. -/
structure BreakdownItem where
  criterion : String
  score : ℚ
  max : ℚ
  feedback : Option String
  deriving DecidableEq

/-- The parsed response object; `none` is a property that is missing. -/
structure ScoringResult where
  overall_score : Option ℚ
  transcription : Option String
  breakdown : Option (List BreakdownItem)
  deriving DecidableEq

/-! ## The part of the DOM both scripts render into -/

/-- Value of an inline `style.display`. -/
inductive Display where
  | unset
  | none
  | block
  | inline
  deriving DecidableEq

/-- Content of the `#overall-score` element: markup text, or a number written by the script. -/
inductive ScoreText where
  | markup (s : String)
  | number (n : ℚ)
  deriving DecidableEq

/-- One `div.breakdown-item` as built by the template literal of `displayResults`. -/
structure BreakdownElement where
  criterion : String
  score : ℚ
  max : ℚ
  widthPercent : JsNum
  feedback : String
  deriving DecidableEq

/-- The elements shared by the two pages. -/
structure View where
  /-- `.input-section` `style.display`. -/
  inputDisplay : Display
  /-- `#results-section` carries class `hidden`. -/
  resultsHidden : Bool
  /-- `#error-section` carries class `hidden`. -/
  errorHidden : Bool
  /-- `#overall-score` text. -/
  overallScore : ScoreText
  /-- `#score-circle` `style.strokeDashoffset`. -/
  strokeDashoffset : JsNum
  /-- `#transcription-box` carries class `hidden`. -/
  transcriptionHidden : Bool
  /-- `#transcription-text` text. -/
  transcriptionText : String
  /-- Children of `#breakdown-items`. -/
  breakdownItems : List BreakdownElement
  deriving DecidableEq

/-- The input panel is displayed. -/
def View.inputVisible (v : View) : Bool := v.inputDisplay != Display.none

/-- `result.overall_score || 0`. -/
def overallScoreOrZero (r : ScoringResult) : ℚ :=
  match r.overall_score with
  | some s => if s = 0 then 0 else s
  | none => 0

/-- `item.feedback || ''`. -/
def feedbackOrEmpty (item : BreakdownItem) : String :=
  match item.feedback with
  | some f => if f = "" then "" else f
  | none => ""

/-- Truthiness of `showTranscription && result.transcription`, with the text when truthy. -/
def transcriptionToShow (r : ScoringResult) (showTranscription : Bool) : Option String :=
  if showTranscription then
    match r.transcription with
    | some t => if t = "" then Option.none else some t
    | none => Option.none
  else Option.none

/-- The `forEach` body: `percentage = (item.score / item.max) * 100` and the element built from it. -/
def renderItem (item : BreakdownItem) : BreakdownElement :=
  let percentage := JsNum.mul (JsNum.div (JsNum.fin item.score) (JsNum.fin item.max)) (JsNum.fin 100)
  { criterion := item.criterion, score := item.score, max := item.max,
    widthPercent := percentage, feedback := feedbackOrEmpty item }

/-- `circumference - (overallScore / 100) * circumference` with `circumference = 565`. -/
def gaugeOffset (overallScore : ℚ) : JsNum :=
  let circumference := JsNum.fin 565
  JsNum.sub circumference (JsNum.mul (JsNum.div (JsNum.fin overallScore) (JsNum.fin 100)) circumference)

/-- The three panel updates that open `displayResults` (run before the first read of `result`). -/
def showResultsPanels (v : View) : View :=
  { v with inputDisplay := Display.none, errorHidden := true, resultsHidden := false }

namespace AudioJs

/-- `displayResults(result, showTranscription)` of audio.js, on a result object. -/
def displayResults (result : ScoringResult) (showTranscription : Bool) (v : View) : View :=
  let v := showResultsPanels v
  let overallScore := overallScoreOrZero result
  let v := { v with overallScore := ScoreText.number overallScore }
  let v := { v with strokeDashoffset := gaugeOffset overallScore }
  let v :=
    match transcriptionToShow result showTranscription with
    | some t => { v with transcriptionHidden := false, transcriptionText := t }
    | none => { v with transcriptionHidden := true }
  let v := { v with breakdownItems := [] }
  match result.breakdown with
  | some items => items.foldl (fun w item => { w with breakdownItems := w.breakdownItems ++ [renderItem item] }) v
  | none => v

/-- `showError()` of audio.js. -/
def showError (v : View) : View :=
  { v with inputDisplay := Display.none, resultsHidden := true, errorHidden := false }

end AudioJs

namespace TextJs

/-- `displayResults(result, showTranscription)` of text.js, on a result object. -/
def displayResults (result : ScoringResult) (showTranscription : Bool) (v : View) : View :=
  let v := showResultsPanels v
  let overallScore := overallScoreOrZero result
  let v := { v with overallScore := ScoreText.number overallScore }
  let v := { v with strokeDashoffset := gaugeOffset overallScore }
  let v :=
    match transcriptionToShow result showTranscription with
    | some t => { v with transcriptionHidden := false, transcriptionText := t }
    | none => { v with transcriptionHidden := true }
  let v := { v with breakdownItems := [] }
  match result.breakdown with
  | some items => items.foldl (fun w item => { w with breakdownItems := w.breakdownItems ++ [renderItem item] }) v
  | none => v

/-- `showError()` of text.js. -/
def showError (v : View) : View :=
  { v with inputDisplay := Display.none, resultsHidden := true, errorHidden := false }

end TextJs

/-! ## Submission: what the awaited operations resolve to -/

/-- What `await response.json()` does with the response body. -/
inductive JsonBody where
  /-- The body is not JSON: `response.json()` rejects. -/
  | malformed
  /-- The body is the JSON value `null`. -/
  | null
  /-- The body is a result object (a JSON value other than `null` and without the
  documented properties reads as the object with every property missing). -/
  | object (r : ScoringResult)
  deriving DecidableEq

/-- What `await fetch(...)` does. -/
inductive FetchResult where
  /-- The fetch promise rejects (network failure). -/
  | rejected
  /-- A response arrived, with its HTTP status and body. -/
  | response (status : Nat) (body : JsonBody)
  deriving DecidableEq

/-- The `response.ok` flag: status in the range 200 to 299. -/
def responseOk (status : Nat) : Bool := decide (200 ≤ status) && decide (status ≤ 299)

/-- A submit button with its `.btn-text` and `.loader` children. -/
structure SubmitControl where
  disabled : Bool
  btnTextDisplay : Display
  /-- The `.loader` carries class `hidden`. -/
  loaderHidden : Bool
  deriving DecidableEq

/-- The three statements before `try`: disable, hide the label, show the loader. -/
def SubmitControl.busy (_ : SubmitControl) : SubmitControl :=
  { disabled := true, btnTextDisplay := Display.none, loaderHidden := false }

/-- The three statements of `finally`: enable, show the label, hide the loader. -/
def SubmitControl.release (_ : SubmitControl) : SubmitControl :=
  { disabled := false, btnTextDisplay := Display.inline, loaderHidden := true }

/-! ## audio.js -/

namespace AudioJs

/-- One audio fragment delivered by a `dataavailable` event. -/
abbrev Chunk := Nat

/-- A `Blob`: its parts and its MIME type. -/
structure Blob where
  parts : List Chunk
  type : String
  deriving DecidableEq

/-- The `state` attribute of a `MediaRecorder`. -/
inductive RecorderState where
  | inactive
  | recording
  | paused
  deriving DecidableEq

/-- A `MediaRecorder` together with its stream. -/
structure MediaRecorder where
  state : RecorderState
  mimeType : String
  /-- The tracks of `mediaRecorder.stream` have not been stopped. -/
  tracksLive : Bool
  deriving DecidableEq

/-- A file chosen in `#audio-file`. -/
structure AudioFile where
  name : String
  content : List Chunk
  deriving DecidableEq

/-- The multipart form sent to `/audio/score`. -/
structure AudioRequest where
  fileName : String
  audio : List Chunk
  duration : ℤ
  deriving DecidableEq

/-- What `await navigator.mediaDevices.getUserMedia(...)` does. -/
inductive MicAccess where
  /-- The promise rejects: access refused. -/
  | refused
  /-- A stream is granted; `mimeType` is what a recorder on it reports. -/
  | granted (mimeType : String)
  deriving DecidableEq

/-- The state of the audio page: the closure variables of audio.js and the DOM it touches. -/
structure AudioPage where
  view : View
  mediaRecorder : Option MediaRecorder
  audioChunks : List Chunk
  recordedBlob : Option Blob
  /-- The variable `recordingInterval` holds a live interval. -/
  timerRunning : Bool
  seconds : Nat
  /-- `#record-btn` carries class `recording`. -/
  recordBtnRecording : Bool
  /-- `#audio-playback` carries class `hidden`. -/
  audioPlaybackHidden : Bool
  audioPlaybackSrc : Option Blob
  /-- `#submit-recording` carries class `hidden`. -/
  submitRecordingHidden : Bool
  statusText : String
  recordingTime : String
  submitRecordingBtn : SubmitControl
  /-- `audioFileInput.files[0]`. -/
  audioFile : Option AudioFile
  /-- `#file-name` text. -/
  fileNameDisplay : String
  uploadSubmitBtn : SubmitControl
  /-- Messages shown by `alert`, oldest first. -/
  alerts : List String
  /-- Requests handed to `fetch`, oldest first. -/
  requests : List AudioRequest
  deriving DecidableEq

/-- `String(n).padStart(2, '0')`. -/
def pad2 (n : Nat) : String :=
  let s := toString n
  if s.length < 2 then "0" ++ s else s

/-- The interval callback of `startTimer`. -/
def tick (p : AudioPage) : AudioPage :=
  if p.timerRunning then
    let seconds := p.seconds + 1
    let mins := seconds / 60
    let secs := seconds % 60
    { p with seconds := seconds, recordingTime := pad2 mins ++ ":" ++ pad2 secs }
  else p

/-- `startTimer()`: clear the previous interval and set a new one. -/
def startTimer (p : AudioPage) : AudioPage :=
  { p with timerRunning := true }

/-- `startRecording()`, with the result of the microphone request. -/
def startRecording (mic : MicAccess) (p : AudioPage) : AudioPage :=
  match mic with
  | MicAccess.granted mimeType =>
    let recorder : MediaRecorder :=
      { state := RecorderState.inactive, mimeType := mimeType, tracksLive := true }
    let p := { p with mediaRecorder := some recorder }
    let p := { p with audioChunks := [] }
    let p := { p with seconds := 0 }
    -- mediaRecorder.start()
    let p := { p with mediaRecorder := some { recorder with state := RecorderState.recording } }
    let p := { p with recordBtnRecording := true, submitRecordingHidden := true, audioPlaybackHidden := true }
    let p := { p with statusText := "Recording... Tap square to stop", recordingTime := "00:00" }
    startTimer p
  | MicAccess.refused =>
    { p with alerts := p.alerts ++ ["Unable to access microphone. Please check permissions."] }

/-- The `dataavailable` listener. -/
def onDataAvailable (data : Chunk) (p : AudioPage) : AudioPage :=
  { p with audioChunks := p.audioChunks ++ [data] }

/-- The `stop` listener. -/
def onStop (p : AudioPage) : AudioPage :=
  let mimeType :=
    match p.mediaRecorder with
    | some r => if r.mimeType = "" then "audio/webm" else r.mimeType
    | none => "audio/webm"
  let blob : Blob := { parts := p.audioChunks, type := mimeType }
  let p := { p with recordedBlob := some blob }
  let p := { p with audioPlaybackSrc := some blob, audioPlaybackHidden := false, submitRecordingHidden := false }
  let p := { p with statusText := "Recording complete. Review or submit." }
  { p with recordBtnRecording := false, timerRunning := false }

/-- `stopRecording()`: `mediaRecorder.stop()` makes the recorder inactive and the tracks are
stopped; the `dataavailable` event with the captured data and the `stop` event it queues are
delivered next. -/
def stopRecording (data : Chunk) (p : AudioPage) : AudioPage :=
  match p.mediaRecorder with
  | some r =>
    if r.state = RecorderState.recording ∨ r.state = RecorderState.paused then
      let p := { p with mediaRecorder := some { r with state := RecorderState.inactive, tracksLive := false } }
      onStop (onDataAvailable data p)
    else p
  | none => p

/-- The click listener of `#record-btn`. -/
def recordBtnClick (mic : MicAccess) (data : Chunk) (p : AudioPage) : AudioPage :=
  match p.mediaRecorder with
  | none => startRecording mic p
  | some r =>
    if r.state = RecorderState.inactive then startRecording mic p
    else stopRecording data p

/-- `haystack.includes(needle)` on strings. -/
def includes (haystack needle : String) : Bool :=
  haystack.toList.tails.any (fun t => needle.toList.isPrefixOf t)

/-- The tail of both `try` blocks, from `await fetch` on: `Except.error` is a throw, carrying
the page as it is at the throw. -/
def scoreAudio (net : FetchResult) (p : AudioPage) : Except AudioPage AudioPage :=
  match net with
  | FetchResult.rejected => Except.error p
  | FetchResult.response status body =>
    if responseOk status then
      match body with
      | JsonBody.malformed => Except.error p
      | JsonBody.null => Except.error { p with view := showResultsPanels p.view }
      | JsonBody.object result => Except.ok { p with view := displayResults result true p.view }
    else Except.error p

/-- The click listener of `#submit-recording`. -/
def submitRecordingClick (net : FetchResult) (p : AudioPage) : AudioPage :=
  match p.recordedBlob with
  | none => p
  | some blob =>
    let p := { p with submitRecordingBtn := p.submitRecordingBtn.busy }
    let tried : Except AudioPage AudioPage :=
      let extension := if includes blob.type "webm" then "webm" else "wav"
      let request : AudioRequest :=
        { fileName := "recording." ++ extension, audio := blob.parts, duration := Int.ofNat p.seconds }
      let p := { p with requests := p.requests ++ [request] }
      scoreAudio net p
    let p :=
      match tried with
      | Except.ok p => p
      | Except.error p => { p with view := showError p.view }
    { p with submitRecordingBtn := p.submitRecordingBtn.release }

/-- The `change` listener of `#audio-file`. -/
def audioFileChange (file : Option AudioFile) (p : AudioPage) : AudioPage :=
  match file with
  | some f => { p with audioFile := some f, fileNameDisplay := f.name }
  | none => { p with audioFile := none, fileNameDisplay := "Click to browse audio file" }

/-- `reset()` of audio.js. -/
def reset (p : AudioPage) : AudioPage :=
  let p := { p with view := { p.view with inputDisplay := Display.block, resultsHidden := true,
                                            errorHidden := true, transcriptionHidden := true } }
  -- audioUploadForm.reset()
  let p := { p with audioFile := none }
  let p := { p with fileNameDisplay := "Click to browse audio file" }
  { p with view := { p.view with strokeDashoffset := JsNum.fin 565 } }

end AudioJs

/-! ## text.js -/

namespace TextJs

/-- The white space `parseInt` skips at the start of its argument. -/
def isStrWhiteSpace (c : Char) : Bool :=
  let n := c.toNat
  n == 0x9 || n == 0xA || n == 0xB || n == 0xC || n == 0xD || n == 0x20 || n == 0xA0 ||
  n == 0x1680 || (decide (0x2000 ≤ n) && decide (n ≤ 0x200A)) || n == 0x2028 || n == 0x2029 ||
  n == 0x202F || n == 0x205F || n == 0x3000 || n == 0xFEFF

/-- The value of a character as a digit, letters counting from ten. -/
def digitValue (c : Char) : Option Nat :=
  let n := c.toNat
  if 48 ≤ n ∧ n ≤ 57 then some (n - 48)
  else if 97 ≤ n ∧ n ≤ 122 then some (n - 97 + 10)
  else if 65 ≤ n ∧ n ≤ 90 then some (n - 65 + 10)
  else none

/-- The digit values of the longest prefix made of digits of the radix. -/
def leadingDigits (radix : Nat) : List Char → List Nat
  | [] => []
  | c :: cs =>
    match digitValue c with
    | some d => if d < radix then d :: leadingDigits radix cs else []
    | none => []

/-- The number a digit sequence denotes in the radix. -/
def digitsValue (radix : Nat) (ds : List Nat) : Nat :=
  ds.foldl (fun acc d => acc * radix + d) 0

/-- The argument of `parseInt` starts with a minus sign. -/
def startsWithMinus : List Char → Bool
  | '-' :: _ => true
  | _ => false

/-- Remove a leading `+` or `-`. -/
def dropSign : List Char → List Char
  | '+' :: rest => rest
  | '-' :: rest => rest
  | cs => cs

/-- The characters start with `0x` or `0X`. -/
def startsWithHexMarker : List Char → Bool
  | '0' :: 'x' :: _ => true
  | '0' :: 'X' :: _ => true
  | _ => false

/-- JavaScript `parseInt(s)` with no radix argument; `none` is `NaN`. -/
def parseInt (s : String) : Option ℤ :=
  let cs := s.toList.dropWhile isStrWhiteSpace
  let negative := startsWithMinus cs
  let cs := dropSign cs
  let radix : Nat := if startsWithHexMarker cs then 16 else 10
  let cs := if startsWithHexMarker cs then cs.drop 2 else cs
  let z := leadingDigits radix cs
  if z = [] then none
  else
    let mathInt : ℤ := Int.ofNat (digitsValue radix z)
    some (if negative then -mathInt else mathInt)

/-- The JSON body sent to `/score`; a `duration` of `none` is the JSON `null`. -/
structure ScoreRequest where
  transcript : String
  duration : Option ℤ
  deriving DecidableEq

/-- The state of the text page. -/
structure TextPage where
  view : View
  /-- `#transcript` value. -/
  transcript : String
  /-- `#text-duration` value. -/
  textDuration : String
  submitBtn : SubmitControl
  /-- Bodies handed to `fetch`, oldest first. -/
  requests : List ScoreRequest
  deriving DecidableEq

/-- `JSON.stringify({transcript, duration: duration ? parseInt(duration) : null})` for the field
values read by the handler, `duration` being `value || null`; `JSON.stringify` writes `NaN`
as `null`. -/
def requestBody (transcriptValue durationValue : String) : ScoreRequest :=
  let transcript := transcriptValue
  let duration : Option String := if durationValue = "" then none else some durationValue
  { transcript := transcript,
    duration := match duration with
      | some d => parseInt d
      | none => none }

/-- The `try` block of the submit listener from the response on: `Except.error` is a throw,
carrying the page as it is at the throw. -/
def scoreText (net : FetchResult) (p : TextPage) : Except TextPage TextPage :=
  match net with
  | FetchResult.rejected => Except.error p
  | FetchResult.response status body =>
    if responseOk status then
      match body with
      | JsonBody.malformed => Except.error p
      | JsonBody.null => Except.error { p with view := showResultsPanels p.view }
      | JsonBody.object result => Except.ok { p with view := displayResults result false p.view }
    else Except.error p

/-- The `submit` listener of `#text-form`. -/
def textFormSubmit (net : FetchResult) (p : TextPage) : TextPage :=
  let body := requestBody p.transcript p.textDuration
  let p := { p with submitBtn := p.submitBtn.busy }
  let tried : Except TextPage TextPage :=
    let p := { p with requests := p.requests ++ [body] }
    scoreText net p
  let p :=
    match tried with
    | Except.ok p => p
    | Except.error p => { p with view := showError p.view }
  { p with submitBtn := p.submitBtn.release }

/-- Modelled from the spec: the default value of the fields of `#text-form`, which the page
markup sets and `textForm.reset()` restores; the spec has reset clear the form fields. -/
def textFormDefault : String := ""

/-- `reset()` of text.js. -/
def reset (p : TextPage) : TextPage :=
  let p := { p with view := { p.view with inputDisplay := Display.block, resultsHidden := true,
                                            errorHidden := true, transcriptionHidden := true } }
  -- textForm.reset()
  let p := { p with transcript := textFormDefault, textDuration := textFormDefault }
  { p with view := { p.view with strokeDashoffset := JsNum.fin 565 } }

end TextJs

/-! ## Vocabulary of the specification -/

/-- Input mode of the shared view as the spec describes it: input panel visible, results,
error and transcription panels hidden, gauge at the zero-score offset. -/
def View.InputMode (v : View) : Prop :=
  v.inputVisible = true ∧ v.resultsHidden = true ∧ v.errorHidden = true ∧
  v.transcriptionHidden = true ∧ v.strokeDashoffset = JsNum.fin 565

/-- The states of the recording controller the spec names. -/
inductive Phase where
  | idle
  | recording
  | reviewing
  deriving DecidableEq

/-- The controller state read off the closure variables: recording while a recorder exists
and is not inactive (the trigger then stops it); otherwise reviewing when an assembled
recording is held, and idle when none is. -/
def AudioJs.phase (p : AudioJs.AudioPage) : Phase :=
  let capturing : Bool :=
    match p.mediaRecorder with
    | some r => r.state != AudioJs.RecorderState.inactive
    | none => false
  if capturing then Phase.recording
  else if p.recordedBlob.isSome then Phase.reviewing
  else Phase.idle

/-- A view before any submission: input panel shown, the other panels hidden, empty gauge. -/
def sampleView : View :=
  { inputDisplay := Display.unset, resultsHidden := true, errorHidden := true,
    overallScore := ScoreText.markup "0", strokeDashoffset := JsNum.fin 565,
    transcriptionHidden := true, transcriptionText := "", breakdownItems := [] }

/-- A submit button at rest. -/
def sampleControl : SubmitControl :=
  { disabled := false, btnTextDisplay := Display.unset, loaderHidden := true }

/-- The audio page when the script has just run: the closure variables as lines 27 to 31
initialise them, nothing recorded or chosen yet. -/
def AudioJs.initialPage : AudioJs.AudioPage :=
  { view := sampleView, mediaRecorder := none, audioChunks := [], recordedBlob := none,
    timerRunning := false, seconds := 0, recordBtnRecording := false,
    audioPlaybackHidden := true, audioPlaybackSrc := none, submitRecordingHidden := true,
    statusText := "", recordingTime := "00:00", submitRecordingBtn := sampleControl,
    audioFile := none, fileNameDisplay := "Click to browse audio file",
    uploadSubmitBtn := sampleControl, alerts := [], requests := [] }

/-- The text page when the script has just run, with empty fields. -/
def TextJs.initialPage : TextJs.TextPage :=
  { view := sampleView, transcript := "", textDuration := "", submitBtn := sampleControl,
    requests := [] }

/-- The audio page after one recording: start with access granted, three timer ticks, stop
with the captured data `42`. -/
def AudioJs.reviewedPage : AudioJs.AudioPage :=
  AudioJs.recordBtnClick AudioJs.MicAccess.refused 42
    (AudioJs.tick (AudioJs.tick (AudioJs.tick
      (AudioJs.recordBtnClick (AudioJs.MicAccess.granted "audio/webm") 0 AudioJs.initialPage))))

/-! ## Lemmas on the renderer -/

theorem overallScoreOrZero_eq (r : ScoringResult) :
    overallScoreOrZero r = r.overall_score.getD 0 := by
  unfold overallScoreOrZero
  cases h : r.overall_score with
  | none => rfl
  | some s =>
    by_cases hs : s = 0
    · simp [hs]
    · simp [hs]

theorem gaugeOffset_eq (s : ℚ) : gaugeOffset s = JsNum.fin (565 - (s / 100) * 565) := by
  simp [gaugeOffset, JsNum.sub, JsNum.mul, JsNum.div]

theorem foldl_append_rendered (items : List BreakdownItem) (v : View) :
    items.foldl (fun w item => { w with breakdownItems := w.breakdownItems ++ [renderItem item] }) v
      = { v with breakdownItems := v.breakdownItems ++ items.map renderItem } := by
  induction items generalizing v with
  | nil => simp
  | cons item rest ih => simp [List.foldl_cons, ih, List.append_assoc]

/-- The view `displayResults` of audio.js leaves, field by field. -/
theorem audio_displayResults_eq (r : ScoringResult) (f : Bool) (v : View) :
    AudioJs.displayResults r f v =
      { inputDisplay := Display.none, resultsHidden := false, errorHidden := true,
        overallScore := ScoreText.number (r.overall_score.getD 0),
        strokeDashoffset := JsNum.fin (565 - (r.overall_score.getD 0 / 100) * 565),
        transcriptionHidden := (transcriptionToShow r f).isNone,
        transcriptionText := (transcriptionToShow r f).getD v.transcriptionText,
        breakdownItems := (r.breakdown.getD []).map renderItem } := by
  unfold AudioJs.displayResults
  simp only [overallScoreOrZero_eq, gaugeOffset_eq, showResultsPanels]
  cases hb : r.breakdown <;> cases ht : transcriptionToShow r f <;>
    simp [foldl_append_rendered]

/-- The view `displayResults` of text.js leaves, field by field. -/
theorem text_displayResults_eq (r : ScoringResult) (f : Bool) (v : View) :
    TextJs.displayResults r f v =
      { inputDisplay := Display.none, resultsHidden := false, errorHidden := true,
        overallScore := ScoreText.number (r.overall_score.getD 0),
        strokeDashoffset := JsNum.fin (565 - (r.overall_score.getD 0 / 100) * 565),
        transcriptionHidden := (transcriptionToShow r f).isNone,
        transcriptionText := (transcriptionToShow r f).getD v.transcriptionText,
        breakdownItems := (r.breakdown.getD []).map renderItem } := by
  unfold TextJs.displayResults
  simp only [overallScoreOrZero_eq, gaugeOffset_eq, showResultsPanels]
  cases hb : r.breakdown <;> cases ht : transcriptionToShow r f <;>
    simp [foldl_append_rendered]

/-! ## C1: score text and gauge offset -/

/-- C3. From every page state, and so from every state reached through `displayResults` (any
result, either flag) or through `showError`, `reset` leaves the input panel visible, the
results, error and transcription panels hidden and the gauge offset at 565; on the audio page
the chosen file is cleared and the file-name label is the placeholder, on the text page both
fields are cleared. -/
theorem c3_reset_restores_input_mode (p : AudioJs.AudioPage) (q : TextJs.TextPage)
    (r : ScoringResult) (f : Bool) :
    (∀ p' ∈ [p, { p with view := AudioJs.displayResults r f p.view },
                { p with view := AudioJs.showError p.view }],
        (AudioJs.reset p').view.InputMode ∧ (AudioJs.reset p').audioFile = none ∧
        (AudioJs.reset p').fileNameDisplay = "Click to browse audio file") ∧
    (∀ q' ∈ [q, { q with view := TextJs.displayResults r f q.view },
                { q with view := TextJs.showError q.view }],
        (TextJs.reset q').view.InputMode ∧ (TextJs.reset q').transcript = "" ∧
        (TextJs.reset q').textDuration = "") := by
  have ha : ∀ p' : AudioJs.AudioPage, (AudioJs.reset p').view.InputMode ∧
      (AudioJs.reset p').audioFile = none ∧
      (AudioJs.reset p').fileNameDisplay = "Click to browse audio file" := by
    intro p'
    simp [AudioJs.reset, View.InputMode, View.inputVisible]
  have ht : ∀ q' : TextJs.TextPage, (TextJs.reset q').view.InputMode ∧
      (TextJs.reset q').transcript = "" ∧ (TextJs.reset q').textDuration = "" := by
    intro q'
    simp [TextJs.reset, View.InputMode, View.inputVisible, TextJs.textFormDefault]
  exact ⟨fun p' _ => ha p', fun q' _ => ht q'⟩

/-! ## C4: cleanup on every exit of a started submission -/

/-- C6, as stated, fails. After a recording of three seconds with data `42`, `reset` leaves
the blob, the fragments and the counter in place and the submit control visible, and a
submission after the reset sends that recording; a new start also keeps the blob. -/
theorem c6_session_survives_reset :
    (AudioJs.reset AudioJs.reviewedPage).recordedBlob = some ⟨[42], "audio/webm"⟩ ∧
    (AudioJs.reset AudioJs.reviewedPage).audioChunks = [42] ∧
    (AudioJs.reset AudioJs.reviewedPage).seconds = 3 ∧
    (AudioJs.reset AudioJs.reviewedPage).submitRecordingHidden = false ∧
    (AudioJs.submitRecordingClick FetchResult.rejected
        (AudioJs.reset AudioJs.reviewedPage)).requests = [⟨"recording.webm", [42], 3⟩] ∧
    (AudioJs.startRecording (AudioJs.MicAccess.granted "audio/webm")
        AudioJs.reviewedPage).recordedBlob = some ⟨[42], "audio/webm"⟩ := by
  refine ⟨?_, ?_, ?_, ?_, ?_, ?_⟩ <;> decide

/-- C6, amended. A successful start empties the fragment list, zeroes the counter and hides
playback and the submit control; it keeps the previous blob, which the next stop replaces by
a blob made of the new session's fragments only. `reset` leaves the recorder, fragments,
counter, blob, timer and recording controls as they were. -/
theorem c6_start_clears_fragments_reset_keeps_session (p : AudioJs.AudioPage)
    (mimeType : String) (data : AudioJs.Chunk) :
    ((AudioJs.startRecording (AudioJs.MicAccess.granted mimeType) p).audioChunks = [] ∧
     (AudioJs.startRecording (AudioJs.MicAccess.granted mimeType) p).seconds = 0 ∧
     (AudioJs.startRecording (AudioJs.MicAccess.granted mimeType) p).submitRecordingHidden = true ∧
     (AudioJs.startRecording (AudioJs.MicAccess.granted mimeType) p).audioPlaybackHidden = true ∧
     (AudioJs.startRecording (AudioJs.MicAccess.granted mimeType) p).recordedBlob = p.recordedBlob ∧
     (AudioJs.stopRecording data
        (AudioJs.startRecording (AudioJs.MicAccess.granted mimeType) p)).recordedBlob
       = some ⟨[data], if mimeType = "" then "audio/webm" else mimeType⟩) ∧
    ((AudioJs.reset p).mediaRecorder = p.mediaRecorder ∧
     (AudioJs.reset p).audioChunks = p.audioChunks ∧
     (AudioJs.reset p).seconds = p.seconds ∧
     (AudioJs.reset p).recordedBlob = p.recordedBlob ∧
     (AudioJs.reset p).timerRunning = p.timerRunning ∧
     (AudioJs.reset p).recordBtnRecording = p.recordBtnRecording ∧
     (AudioJs.reset p).audioPlaybackHidden = p.audioPlaybackHidden ∧
     (AudioJs.reset p).audioPlaybackSrc = p.audioPlaybackSrc ∧
     (AudioJs.reset p).submitRecordingHidden = p.submitRecordingHidden ∧
     (AudioJs.reset p).statusText = p.statusText ∧
     (AudioJs.reset p).recordingTime = p.recordingTime) := by
  refine ⟨⟨rfl, rfl, rfl, rfl, rfl, ?_⟩, ⟨rfl, rfl, rfl, rfl, rfl, rfl, rfl, rfl, rfl, rfl, rfl⟩⟩
  simp [AudioJs.startRecording, AudioJs.startTimer, AudioJs.stopRecording, AudioJs.onStop,
    AudioJs.onDataAvailable]

/-! ## C7: the recording state machine -/

theorem AudioJs.phase_startRecording_granted (mimeType : String) (p : AudioJs.AudioPage) :
    AudioJs.phase (AudioJs.startRecording (AudioJs.MicAccess.granted mimeType) p)
      = Phase.recording := by
  simp [AudioJs.phase, AudioJs.startRecording, AudioJs.startTimer]

theorem AudioJs.phase_recording_iff (p : AudioJs.AudioPage) :
    AudioJs.phase p = Phase.recording ↔
      ∃ r, p.mediaRecorder = some r ∧ r.state ≠ AudioJs.RecorderState.inactive := by
  unfold AudioJs.phase
  cases hm : p.mediaRecorder with
  | none => cases hb : p.recordedBlob <;> simp
  | some r =>
    by_cases hs : r.state = AudioJs.RecorderState.inactive
    · cases hb : p.recordedBlob <;> simp [hs]
    · simp [hs]

theorem AudioJs.submitRecordingClick_session (net : FetchResult) (p : AudioJs.AudioPage) :
    (AudioJs.submitRecordingClick net p).mediaRecorder = p.mediaRecorder ∧
    (AudioJs.submitRecordingClick net p).recordedBlob = p.recordedBlob ∧
    (AudioJs.submitRecordingClick net p).audioPlaybackHidden = p.audioPlaybackHidden ∧
    (AudioJs.submitRecordingClick net p).submitRecordingHidden = p.submitRecordingHidden := by
  unfold AudioJs.submitRecordingClick
  cases hb : p.recordedBlob with
  | none => simp [hb]
  | some blob =>
    cases net with
    | rejected => simp [AudioJs.scoreAudio, hb]
    | response status body =>
      by_cases hok : responseOk status = true <;> cases body <;>
        simp [AudioJs.scoreAudio, hok, hb]

/-- C7, as stated, fails in its last part. A submission from the reviewing state that
completes with a scored result leaves the controller in reviewing, not idle: the blob is
still held and playback and the submit control are still shown and enabled. -/
theorem c7_submission_stays_reviewing :
    AudioJs.phase AudioJs.reviewedPage = Phase.reviewing ∧
    AudioJs.phase (AudioJs.submitRecordingClick
        (FetchResult.response 200 (JsonBody.object ⟨some 85, none, none⟩))
        AudioJs.reviewedPage) = Phase.reviewing ∧
    AudioJs.phase (AudioJs.submitRecordingClick
        (FetchResult.response 200 (JsonBody.object ⟨some 85, none, none⟩))
        AudioJs.reviewedPage) ≠ Phase.idle ∧
    (AudioJs.submitRecordingClick
        (FetchResult.response 200 (JsonBody.object ⟨some 85, none, none⟩))
        AudioJs.reviewedPage).recordedBlob = some ⟨[42], "audio/webm"⟩ ∧
    (AudioJs.submitRecordingClick
        (FetchResult.response 200 (JsonBody.object ⟨some 85, none, none⟩))
        AudioJs.reviewedPage).submitRecordingHidden = false ∧
    (AudioJs.submitRecordingClick
        (FetchResult.response 200 (JsonBody.object ⟨some 85, none, none⟩))
        AudioJs.reviewedPage).submitRecordingBtn.disabled = false := by
  refine ⟨?_, ?_, ?_, ?_, ?_, ?_⟩ <;> decide

/-- C7, amended. A trigger click when the controller is not recording (idle or reviewing),
with microphone access granted, enters recording; a trigger click in recording stops capture
and yields reviewing, with the blob assembled from the fragments and playback and the submit
control shown; a submission from reviewing, whatever its outcome, leaves the controller in
reviewing with the same blob. Idle is the state before the first recording only. -/
theorem c7_recording_state_machine (a b c : AudioJs.AudioPage) (mimeType : String)
    (mic : AudioJs.MicAccess) (data : AudioJs.Chunk) (net : FetchResult)
    (ha : AudioJs.phase a = Phase.idle ∨ AudioJs.phase a = Phase.reviewing)
    (hb : AudioJs.phase b = Phase.recording)
    (hc : AudioJs.phase c = Phase.reviewing) :
    AudioJs.phase (AudioJs.recordBtnClick (AudioJs.MicAccess.granted mimeType) data a)
      = Phase.recording ∧
    (AudioJs.phase (AudioJs.recordBtnClick mic data b) = Phase.reviewing ∧
     (∃ type, (AudioJs.recordBtnClick mic data b).recordedBlob
        = some ⟨b.audioChunks ++ [data], type⟩) ∧
     (AudioJs.recordBtnClick mic data b).audioPlaybackHidden = false ∧
     (AudioJs.recordBtnClick mic data b).submitRecordingHidden = false ∧
     (AudioJs.recordBtnClick mic data b).timerRunning = false) ∧
    (AudioJs.phase (AudioJs.submitRecordingClick net c) = Phase.reviewing ∧
     (AudioJs.submitRecordingClick net c).recordedBlob = c.recordedBlob) := by
  refine ⟨?_, ?_, ?_⟩
  · have hnot : ¬ AudioJs.phase a = Phase.recording := by
      rcases ha with h | h <;> simp [h]
    rw [AudioJs.phase_recording_iff] at hnot
    unfold AudioJs.recordBtnClick
    cases hm : a.mediaRecorder with
    | none => exact AudioJs.phase_startRecording_granted mimeType a
    | some r =>
      by_cases hs : r.state = AudioJs.RecorderState.inactive
      · simp only [hs, if_true]
        exact AudioJs.phase_startRecording_granted mimeType a
      · exact absurd ⟨r, hm, hs⟩ hnot
  · obtain ⟨r, hm, hs⟩ := (AudioJs.phase_recording_iff b).1 hb
    have hrp : r.state = AudioJs.RecorderState.recording ∨ r.state = AudioJs.RecorderState.paused := by
      cases hst : r.state <;> simp_all
    simp [AudioJs.recordBtnClick, AudioJs.stopRecording, AudioJs.onStop, AudioJs.onDataAvailable,
      AudioJs.phase, hm, hs, hrp]
  · obtain ⟨h1, h2, _, _⟩ := AudioJs.submitRecordingClick_session net c
    refine ⟨?_, h2⟩
    unfold AudioJs.phase at hc ⊢
    rw [h1, h2]
    exact hc

/-- Witness for C7: the page as loaded (idle), after a granted start (recording), and after
the stop (reviewing). -/
theorem c7_recording_state_machine_witness :
    AudioJs.phase (AudioJs.recordBtnClick (AudioJs.MicAccess.granted "audio/webm") 7
        AudioJs.initialPage) = Phase.recording ∧
    AudioJs.phase (AudioJs.recordBtnClick AudioJs.MicAccess.refused 7
        (AudioJs.startRecording (AudioJs.MicAccess.granted "audio/webm") AudioJs.initialPage))
      = Phase.reviewing ∧
    AudioJs.phase (AudioJs.submitRecordingClick FetchResult.rejected AudioJs.reviewedPage)
      = Phase.reviewing :=
  have h := c7_recording_state_machine AudioJs.initialPage
    (AudioJs.startRecording (AudioJs.MicAccess.granted "audio/webm") AudioJs.initialPage)
    AudioJs.reviewedPage "audio/webm" AudioJs.MicAccess.refused 7 FetchResult.rejected
    (Or.inl (by decide)) (by decide) (by decide)
  ⟨h.1, h.2.1.1, h.2.2.1⟩

/-! ## C8: refused microphone access -/

/-- C8. From every controller state, `startRecording` with microphone access refused changes
nothing but the list of alerts, to which it adds the one message: the recorder, fragments,
counter, blob, timer and recording controls are as before, and the controller state is the
same, so it does not enter recording. A trigger click outside recording does the same. -/
theorem c8_refused_access_only_alerts (p : AudioJs.AudioPage) :
    AudioJs.startRecording AudioJs.MicAccess.refused p
      = { p with alerts := p.alerts ++ ["Unable to access microphone. Please check permissions."] } ∧
    (AudioJs.startRecording AudioJs.MicAccess.refused p).mediaRecorder = p.mediaRecorder ∧
    (AudioJs.startRecording AudioJs.MicAccess.refused p).audioChunks = p.audioChunks ∧
    (AudioJs.startRecording AudioJs.MicAccess.refused p).seconds = p.seconds ∧
    (AudioJs.startRecording AudioJs.MicAccess.refused p).recordedBlob = p.recordedBlob ∧
    (AudioJs.startRecording AudioJs.MicAccess.refused p).timerRunning = p.timerRunning ∧
    (AudioJs.startRecording AudioJs.MicAccess.refused p).recordBtnRecording = p.recordBtnRecording ∧
    (AudioJs.startRecording AudioJs.MicAccess.refused p).statusText = p.statusText ∧
    (AudioJs.startRecording AudioJs.MicAccess.refused p).recordingTime = p.recordingTime ∧
    AudioJs.phase (AudioJs.startRecording AudioJs.MicAccess.refused p) = AudioJs.phase p ∧
    (∀ data, AudioJs.recordBtnClick AudioJs.MicAccess.refused data { p with mediaRecorder := none }
      = AudioJs.startRecording AudioJs.MicAccess.refused { p with mediaRecorder := none }) := by
  refine ⟨rfl, rfl, rfl, rfl, rfl, rfl, rfl, rfl, rfl, rfl, fun _ => rfl⟩

/-! ## C9: the body of the text request -/

namespace TextJs

end TextJs

/-- C10. Whatever the breakdown list held before, after `displayResults` (audio.js and
text.js) it holds the rendering of each entry of `result.breakdown`, in order, and nothing
else: as many elements as entries. When `breakdown` is missing the list is empty and the
call returns without throwing, so the handler takes the success path. -/
theorem c10_breakdown_list_rebuilt (r : ScoringResult) (f : Bool) (v : View)
    (previous : List BreakdownElement) (p : AudioJs.AudioPage) (q : TextJs.TextPage) :
    ((AudioJs.displayResults r f { v with breakdownItems := previous }).breakdownItems
        = (r.breakdown.getD []).map renderItem ∧
     (AudioJs.displayResults r f { v with breakdownItems := previous }).breakdownItems.length
        = (r.breakdown.getD []).length ∧
     (TextJs.displayResults r f { v with breakdownItems := previous }).breakdownItems
        = (r.breakdown.getD []).map renderItem ∧
     (TextJs.displayResults r f { v with breakdownItems := previous }).breakdownItems.length
        = (r.breakdown.getD []).length) ∧
    ((AudioJs.displayResults { r with breakdown := none } f
        { v with breakdownItems := previous }).breakdownItems = [] ∧
     (TextJs.displayResults { r with breakdown := none } f
        { v with breakdownItems := previous }).breakdownItems = []) ∧
    (AudioJs.scoreAudio (FetchResult.response 200 (JsonBody.object { r with breakdown := none })) p
        = Except.ok { p with view := AudioJs.displayResults { r with breakdown := none } true p.view } ∧
     TextJs.scoreText (FetchResult.response 200 (JsonBody.object { r with breakdown := none })) q
        = Except.ok { q with view := TextJs.displayResults { r with breakdown := none } false q.view }) := by
  refine ⟨?_, ?_, rfl, rfl⟩ <;> simp [audio_displayResults_eq, text_displayResults_eq]

/-! ## C11: the transcription panel -/

theorem transcriptionToShow_eq_some (r : ScoringResult) (f : Bool) (t : String) :
    transcriptionToShow r f = some t ↔ f = true ∧ r.transcription = some t ∧ t ≠ "" := by
  unfold transcriptionToShow
  cases f with
  | false => simp
  | true =>
    cases hr : r.transcription with
    | none => simp
    | some s =>
      by_cases hs : s = ""
      · subst hs
        simp only [if_true, true_and, if_pos, Option.some.injEq]
        constructor
        · intro h
          cases h
        · rintro ⟨h1, h2⟩
          exact absurd h1.symm h2
      · simp only [if_true, hs, if_false, Option.some.injEq, true_and]
        constructor
        · intro h
          subst h
          exact ⟨rfl, hs⟩
        · rintro ⟨h1, _⟩
          exact h1

theorem transcriptionToShow_isNone (r : ScoringResult) (f : Bool) :
    (transcriptionToShow r f).isNone = false ↔
      f = true ∧ ∃ t, r.transcription = some t ∧ t ≠ "" := by
  constructor
  · intro h
    cases hs : transcriptionToShow r f with
    | none => simp [hs] at h
    | some t =>
      obtain ⟨h1, h2, h3⟩ := (transcriptionToShow_eq_some r f t).1 hs
      exact ⟨h1, t, h2, h3⟩
  · rintro ⟨h1, t, h2, h3⟩
    rw [(transcriptionToShow_eq_some r f t).2 ⟨h1, h2, h3⟩]
    rfl

theorem TextJs.textFormSubmit_view_ok (status : Nat) (r : ScoringResult) (q : TextJs.TextPage)
    (hok : responseOk status = true) :
    (TextJs.textFormSubmit (FetchResult.response status (JsonBody.object r)) q).view
      = TextJs.displayResults r false q.view := by
  simp [TextJs.textFormSubmit, TextJs.scoreText, hok]

/-- C11. After `displayResults` (audio.js and text.js) the transcription panel is visible
exactly when the `showTranscription` flag is set and the result has a non-empty
transcription, and the panel text is then that transcription. The text controller calls
it with the flag off: after a text submission answered by a 2xx response with a result, the
panel is hidden whatever the result contains, a non-empty transcription included. -/
theorem c11_transcription_panel (r : ScoringResult) (f : Bool) (v : View) (q : TextJs.TextPage)
    (status : Nat) (t : String) (ht : t ≠ "") (hok : responseOk status = true) :
    (((AudioJs.displayResults r f v).transcriptionHidden = false ↔
        f = true ∧ ∃ s, r.transcription = some s ∧ s ≠ "") ∧
     ((TextJs.displayResults r f v).transcriptionHidden = false ↔
        f = true ∧ ∃ s, r.transcription = some s ∧ s ≠ "")) ∧
    ((AudioJs.displayResults { r with transcription := some t } true v).transcriptionHidden = false ∧
     (AudioJs.displayResults { r with transcription := some t } true v).transcriptionText = t ∧
     (TextJs.displayResults { r with transcription := some t } true v).transcriptionHidden = false ∧
     (TextJs.displayResults { r with transcription := some t } true v).transcriptionText = t) ∧
    ((TextJs.textFormSubmit (FetchResult.response status (JsonBody.object r)) q).view.transcriptionHidden
        = true ∧
     (TextJs.textFormSubmit (FetchResult.response status
        (JsonBody.object { r with transcription := some t })) q).view.transcriptionHidden = true) := by
  have hshow : transcriptionToShow { r with transcription := some t } true = some t :=
    (transcriptionToShow_eq_some _ true t).2 ⟨rfl, rfl, ht⟩
  have hoff : ∀ r' : ScoringResult, transcriptionToShow r' false = none := fun _ => rfl
  refine ⟨⟨?_, ?_⟩, ⟨?_, ?_, ?_, ?_⟩, ⟨?_, ?_⟩⟩
  · rw [audio_displayResults_eq]
    exact transcriptionToShow_isNone r f
  · rw [text_displayResults_eq]
    exact transcriptionToShow_isNone r f
  · rw [audio_displayResults_eq, hshow]
    rfl
  · rw [audio_displayResults_eq, hshow]
    rfl
  · rw [text_displayResults_eq, hshow]
    rfl
  · rw [text_displayResults_eq, hshow]
    rfl
  · rw [TextJs.textFormSubmit_view_ok status r q hok, text_displayResults_eq, hoff]
    rfl
  · rw [TextJs.textFormSubmit_view_ok status _ q hok, text_displayResults_eq, hoff]
    rfl

/-- Witness for C11: a 200 response whose result carries the transcription `hello world`. -/
theorem c11_transcription_panel_witness :
    (AudioJs.displayResults ⟨some 85, some "hello world", none⟩ true sampleView).transcriptionHidden
        = false ∧
    (AudioJs.displayResults ⟨some 85, some "hello world", none⟩ true sampleView).transcriptionText
        = "hello world" ∧
    (TextJs.textFormSubmit (FetchResult.response 200
        (JsonBody.object ⟨some 85, some "hello world", none⟩)) TextJs.initialPage).view.transcriptionHidden
        = true :=
  have h := c11_transcription_panel ⟨some 85, some "hello world", none⟩ true sampleView
    TextJs.initialPage 200 "hello world" (by decide) rfl
  ⟨h.2.1.1, h.2.1.2.1, h.2.2.1⟩

/-! ## C12: the two copies of the renderer agree -/

/-- C12. For every scoring result, either flag and every starting view, `displayResults` of
audio.js and `displayResults` of text.js leave the same view: the same panel visibility,
score text, gauge offset, transcription panel and breakdown list. The two copies of
`showError` agree as well. -/
theorem c12_renderers_agree (r : ScoringResult) (f : Bool) (v : View) :
    AudioJs.displayResults r f v = TextJs.displayResults r f v ∧
    ((AudioJs.displayResults r f v).inputDisplay = (TextJs.displayResults r f v).inputDisplay ∧
     (AudioJs.displayResults r f v).resultsHidden = (TextJs.displayResults r f v).resultsHidden ∧
     (AudioJs.displayResults r f v).errorHidden = (TextJs.displayResults r f v).errorHidden ∧
     (AudioJs.displayResults r f v).overallScore = (TextJs.displayResults r f v).overallScore ∧
     (AudioJs.displayResults r f v).strokeDashoffset
        = (TextJs.displayResults r f v).strokeDashoffset ∧
     (AudioJs.displayResults r f v).transcriptionHidden
        = (TextJs.displayResults r f v).transcriptionHidden ∧
     (AudioJs.displayResults r f v).transcriptionText
        = (TextJs.displayResults r f v).transcriptionText ∧
     (AudioJs.displayResults r f v).breakdownItems
        = (TextJs.displayResults r f v).breakdownItems) ∧
    AudioJs.showError v = TextJs.showError v := by
  have h : AudioJs.displayResults r f v = TextJs.displayResults r f v := by
    rw [audio_displayResults_eq, text_displayResults_eq]
  refine ⟨h, ?_, rfl⟩
  rw [h]
  exact ⟨rfl, rfl, rfl, rfl, rfl, rfl, rfl, rfl⟩

end Nirmaan
